import Mathlib

/-!
Verification of the query-to-request formatting and response-decoding pipeline
of the quandl client library (src/query.rs).

The seven query types, their constructors, their path and argument formatting,
the single-key JSON unwrapping and the zipped-CSV code-list decoding are
embedded as executable Lean definitions.  Types and functions that live
outside src/query.rs (the argument-group types of parameters.rs, the Code
record of types.rs, and the behaviour of the external csv and zip crates) are
modelled from the specification; each such definition says so in its doc
comment.  Everything else is a direct translation of src/query.rs.
-/

namespace Quandl

/-- Modelled from the spec: the error type of the library (declared outside
src/query.rs).  The decoding pipeline only ever produces the parsing-failure
variant, which carries a human-readable message. -/
inductive Error where
  | ParsingFailed (msg : String)
deriving DecidableEq

/-- Modelled from the spec: the Code record of types.rs, a
(database code, dataset code, display name) triple. -/
structure Code where
  database_code : String
  dataset_code : String
  name : String
deriving DecidableEq

/-- Modelled from the spec: the generic request argument group of
parameters.rs, a mapping of option name to rendered value. -/
structure ApiArguments where
  entries : List (String × String)
deriving DecidableEq

/-- Modelled from the spec: the search argument group of parameters.rs. -/
structure SearchArguments where
  entries : List (String × String)
deriving DecidableEq

/-- Modelled from the spec: the data-range argument group of parameters.rs. -/
structure DataArguments where
  entries : List (String × String)
deriving DecidableEq

/-- The empty generic request argument group (Default::default in Rust). -/
def ApiArguments.default : ApiArguments := ⟨[]⟩

/-- The empty search argument group (Default::default in Rust). -/
def SearchArguments.default : SearchArguments := ⟨[]⟩

/-- The empty data-range argument group (Default::default in Rust). -/
def DataArguments.default : DataArguments := ⟨[]⟩

/-- Modelled from the spec: the formatting method of parameters.rs for the
generic request group.  An empty group formats to none; a non-empty group
formats to its key=value entries joined by the ampersand separator. -/
def ApiArguments.fmt (a : ApiArguments) : Option String :=
  if a.entries.isEmpty then none
  else some (String.intercalate "&" (a.entries.map (fun e => e.1 ++ "=" ++ e.2)))

/-- Modelled from the spec: the formatting method of parameters.rs for the
search group. -/
def SearchArguments.fmt (a : SearchArguments) : Option String :=
  if a.entries.isEmpty then none
  else some (String.intercalate "&" (a.entries.map (fun e => e.1 ++ "=" ++ e.2)))

/-- Modelled from the spec: the formatting method of parameters.rs for the
data-range group. -/
def DataArguments.fmt (a : DataArguments) : Option String :=
  if a.entries.isEmpty then none
  else some (String.intercalate "&" (a.entries.map (fun e => e.1 ++ "=" ++ e.2)))

/-- Database metadata query (src/query.rs lines 14-18). -/
structure DatabaseMetadataQuery where
  database_code : String
  request_arguments : ApiArguments
deriving DecidableEq

/-- Dataset metadata query (src/query.rs lines 24-29). -/
structure DatasetMetadataQuery where
  database_code : String
  dataset_code : String
  request_arguments : ApiArguments
deriving DecidableEq

/-- Database search query (src/query.rs lines 35-39). -/
structure DatabaseSearch where
  request_arguments : ApiArguments
  search_arguments : SearchArguments
deriving DecidableEq

/-- Dataset search query (src/query.rs lines 45-50). -/
structure DatasetSearch where
  database_code : String
  request_arguments : ApiArguments
  search_arguments : SearchArguments
deriving DecidableEq

/-- Code list query (src/query.rs lines 56-60). -/
structure CodeListQuery where
  database_code : String
  request_arguments : ApiArguments
deriving DecidableEq

/-- Data query (src/query.rs lines 66-72). -/
structure DataQuery where
  database_code : String
  dataset_code : String
  data_arguments : DataArguments
  request_arguments : ApiArguments
deriving DecidableEq

/-- Data and metadata query (src/query.rs lines 78-84). -/
structure DataAndMetadataQuery where
  database_code : String
  dataset_code : String
  data_arguments : DataArguments
  request_arguments : ApiArguments
deriving DecidableEq

/-- Constructor of DatabaseMetadataQuery (src/query.rs lines 89-94). -/
def DatabaseMetadataQuery.new (database_code : String) : DatabaseMetadataQuery :=
  { database_code := database_code, request_arguments := ApiArguments.default }

/-- Constructor of DatasetMetadataQuery (src/query.rs lines 100-106). -/
def DatasetMetadataQuery.new (database_code dataset_code : String) : DatasetMetadataQuery :=
  { database_code := database_code, dataset_code := dataset_code,
    request_arguments := ApiArguments.default }

/-- Constructor of DatabaseSearch (src/query.rs lines 112-117). -/
def DatabaseSearch.new : DatabaseSearch :=
  { request_arguments := ApiArguments.default, search_arguments := SearchArguments.default }

/-- Constructor of DatasetSearch (src/query.rs lines 123-129). -/
def DatasetSearch.new (database_code : String) : DatasetSearch :=
  { database_code := database_code, request_arguments := ApiArguments.default,
    search_arguments := SearchArguments.default }

/-- Constructor of CodeListQuery (src/query.rs lines 135-140). -/
def CodeListQuery.new (database_code : String) : CodeListQuery :=
  { database_code := database_code, request_arguments := ApiArguments.default }

/-- Constructor of DataQuery (src/query.rs lines 146-153). -/
def DataQuery.new (database_code dataset_code : String) : DataQuery :=
  { database_code := database_code, dataset_code := dataset_code,
    data_arguments := DataArguments.default, request_arguments := ApiArguments.default }

/-- Constructor of DataAndMetadataQuery (src/query.rs lines 159-166). -/
def DataAndMetadataQuery.new (database_code dataset_code : String) : DataAndMetadataQuery :=
  { database_code := database_code, dataset_code := dataset_code,
    data_arguments := DataArguments.default, request_arguments := ApiArguments.default }

/-- URL path of DatabaseMetadataQuery (src/query.rs lines 174-176). -/
def DatabaseMetadataQuery.fmt_path (q : DatabaseMetadataQuery) : Option String :=
  some ("/databases/" ++ q.database_code ++ ".json")

/-- URL path of DatasetMetadataQuery (src/query.rs lines 188-190). -/
def DatasetMetadataQuery.fmt_path (q : DatasetMetadataQuery) : Option String :=
  some ("/datasets/" ++ q.database_code ++ "/" ++ q.dataset_code ++ "/metadata.json")

/-- URL path of DatabaseSearch (src/query.rs lines 198-200). -/
def DatabaseSearch.fmt_path (_q : DatabaseSearch) : Option String :=
  some "/databases.json"

/-- URL path of DatasetSearch (src/query.rs lines 219-221). -/
def DatasetSearch.fmt_path (_q : DatasetSearch) : Option String :=
  some "/datasets.json"

/-- URL path of CodeListQuery (src/query.rs lines 302-304). -/
def CodeListQuery.fmt_path (q : CodeListQuery) : Option String :=
  some ("/databases/" ++ q.database_code ++ "/codes")

/-- URL path of DataQuery (src/query.rs lines 316-318). -/
def DataQuery.fmt_path (q : DataQuery) : Option String :=
  some ("/datasets/" ++ q.database_code ++ "/" ++ q.dataset_code ++ "/data.json")

/-- URL path of DataAndMetadataQuery (src/query.rs lines 341-343). -/
def DataAndMetadataQuery.fmt_path (q : DataAndMetadataQuery) : Option String :=
  some ("/datasets/" ++ q.database_code ++ "/" ++ q.dataset_code ++ ".json")

/-- Argument string of DatabaseMetadataQuery (src/query.rs lines 178-180):
the formatted generic request group alone. -/
def DatabaseMetadataQuery.fmt_arguments (q : DatabaseMetadataQuery) : Option String :=
  ApiArguments.fmt q.request_arguments

/-- Argument string of DatasetMetadataQuery (src/query.rs lines 192-194). -/
def DatasetMetadataQuery.fmt_arguments (q : DatasetMetadataQuery) : Option String :=
  ApiArguments.fmt q.request_arguments

/-- Argument string of CodeListQuery (src/query.rs lines 306-308). -/
def CodeListQuery.fmt_arguments (q : CodeListQuery) : Option String :=
  ApiArguments.fmt q.request_arguments

/-- Argument string of DatabaseSearch (src/query.rs lines 202-215): the
request fragment and the search fragment, joined by one ampersand when both
are present, a single fragment returned unmodified, and none when both are
absent.  The match mirrors the is_some if-chain of the source. -/
def DatabaseSearch.fmt_arguments (q : DatabaseSearch) : Option String :=
  match ApiArguments.fmt q.request_arguments, SearchArguments.fmt q.search_arguments with
  | some arg_1, some arg_2 => some (arg_1 ++ "&" ++ arg_2)
  | some arg_1, none => some arg_1
  | none, some arg_2 => some arg_2
  | none, none => none

/-- Argument string of DatasetSearch (src/query.rs lines 223-238): like the
database-search merge, but a literal database_code term is appended after a
present fragment; when both fragments are absent the source returns none. -/
def DatasetSearch.fmt_arguments (q : DatasetSearch) : Option String :=
  match ApiArguments.fmt q.request_arguments, SearchArguments.fmt q.search_arguments with
  | some arg_1, some arg_2 =>
      some (arg_1 ++ "&" ++ arg_2 ++ "&database_code=" ++ q.database_code)
  | some arg_1, none => some (arg_1 ++ "&database_code=" ++ q.database_code)
  | none, some arg_2 => some (arg_2 ++ "&database_code=" ++ q.database_code)
  | none, none => none

/-- Argument string of DataQuery (src/query.rs lines 320-333): the request
fragment then the data fragment, merged like the database-search case. -/
def DataQuery.fmt_arguments (q : DataQuery) : Option String :=
  match ApiArguments.fmt q.request_arguments, DataArguments.fmt q.data_arguments with
  | some arg_1, some arg_2 => some (arg_1 ++ "&" ++ arg_2)
  | some arg_1, none => some arg_1
  | none, some arg_2 => some arg_2
  | none, none => none

/-- Argument string of DataAndMetadataQuery (src/query.rs lines 345-358):
identical merge rule to DataQuery. -/
def DataAndMetadataQuery.fmt_arguments (q : DataAndMetadataQuery) : Option String :=
  match ApiArguments.fmt q.request_arguments, DataArguments.fmt q.data_arguments with
  | some arg_1, some arg_2 => some (arg_1 ++ "&" ++ arg_2)
  | some arg_1, none => some arg_1
  | none, some arg_2 => some arg_2
  | none, none => none

/-- Single-key unwrapping of a decoded JSON object (src/query.rs lines
395-406).  The source checks tree.len() == 1 and returns the value of the
first (hence only) entry of the BTreeMap; a length-one map is exactly a
singleton association list, so the singleton pattern is an equivalent guard.
Any other length produces the parsing failure reporting the actual count. -/
def unwrap_tree {T : Type} (tree : List (String × T)) : Except Error T :=
  match tree with
  | [(_, v)] => Except.ok v
  | _ => Except.error (Error.ParsingFailed
      ("Expected a single element, got " ++ toString tree.length ++ "."))

/-- The JSON response pipeline of send_and_unwrap_json (src/query.rs lines
385-407) from the point where the transport bytes have been handed to the
external JSON decoder: a decoder failure message is wrapped into a parsing
failure, a decoded key-to-value map goes through single-key unwrapping.
The UTF-8 and JSON parsing themselves belong to the standard library and the
rustc_serialize crate and are represented by the Except argument. -/
def send_and_unwrap_json {T : Type} (decoded : Except String (List (String × T))) :
    Except Error T :=
  match decoded with
  | Except.ok tree => unwrap_tree tree
  | Except.error e => Except.error (Error.ParsingFailed e)

/-- Splitting a character list at every occurrence of a separator character,
with the semantics of the split method on Rust string slices: n occurrences
of the separator yield n + 1 pieces, and the empty input yields one empty
piece. -/
def splitCharAux (c : Char) : List Char → List (List Char)
  | [] => [[]]
  | x :: rest =>
    match splitCharAux c rest with
    | [] => [[]]
    | y :: ys => if x = c then [] :: y :: ys else (x :: y) :: ys

/-- String-level wrapper of splitCharAux, the model of the Rust split call
used on the first CSV column (src/query.rs line 275). -/
def splitChar (c : Char) (s : String) : List String :=
  (splitCharAux c s.toList).map String.mk

/-- Decoding one CSV record into a Code (src/query.rs lines 274-292): the
first column is split on the slash; the source requires pair.len() == 2 and
otherwise reports the fixed invalid-format message; a two-element split is
exactly the two-element list pattern.  No emptiness check is performed on
the two segments. -/
def decode_code_pair (record : String × String) : Except Error Code :=
  match splitChar '/' record.1 with
  | [database_code, dataset_code] =>
      Except.ok { database_code := database_code, dataset_code := dataset_code,
                  name := record.2 }
  | _ => Except.error (Error.ParsingFailed
      "Invalid format for dataset codes in unzipped code list.")

/-- The record loop of CodeListQuery (src/query.rs lines 264-295): each
record either failed to decode at the CSV level (the error message is wrapped
into a parsing failure and the loop aborts) or is decoded into a Code and
pushed onto the accumulator; the loop returns the accumulated codes. -/
def decode_records (records : List (Except String (String × String)))
    (codes : List Code) : Except Error (List Code) :=
  match records with
  | [] => Except.ok codes
  | r :: rest =>
    match r with
    | Except.error e => Except.error (Error.ParsingFailed e)
    | Except.ok record =>
      match decode_code_pair record with
      | Except.error err => Except.error err
      | Except.ok code => decode_records rest (codes ++ [code])

/-- The entry-reading loop of CodeListQuery (src/query.rs lines 251-261).
Each list element models one archive entry: the outer Except is the result of
the by_index lookup of the zip crate, the inner Except the result of
read_to_string on the looked-up entry.  The source unwraps the by_index
result, so a failed lookup panics: this is modelled by the none outcome.  A
failed read is returned as a parsing failure; a successful read appends the
entry text to the accumulated csv string. -/
def read_entries (files : List (Except String (Except String String)))
    (csv : String) : Option (Except Error String) :=
  match files with
  | [] => some (Except.ok csv)
  | f :: rest =>
    match f with
    | Except.error _ => none
    | Except.ok (Except.error e) => some (Except.error (Error.ParsingFailed e))
    | Except.ok (Except.ok s) => read_entries rest (csv ++ s)

/-- Modelled from the spec: the external csv crate parses the combined text
as CSV with two columns per row, code and name; each row yields either a
decoded pair or a row-level decode error.  Rows are the non-empty lines of
the text; a line with a column count other than two is a row-level error. -/
def csv_records (text : String) : List (Except String (String × String)) :=
  ((splitChar (Char.ofNat 10) text).filter (fun l => l != "")).map (fun line =>
    match splitChar ',' line with
    | [code, name] => Except.ok (code, name)
    | _ => Except.error ("CSV decode error in row: " ++ line))

/-- The decoding pipeline of CodeListQuery (src/query.rs lines 242-300)
from the point where the transport bytes have been handed to the external
zip crate.  The argument is the result of opening the bytes as an archive: a
failure message, or the list of entries as consumed by read_entries.  A zip
open failure becomes a parsing failure; otherwise every entry is read and
concatenated, the combined text is parsed as CSV and the records are decoded
into Code values.  The none outcome models a panic of the source. -/
def code_list_decode
    (zip : Except String (List (Except String (Except String String)))) :
    Option (Except Error (List Code)) :=
  match zip with
  | Except.error e => some (Except.error (Error.ParsingFailed e))
  | Except.ok files =>
    match read_entries files "" with
    | none => none
    | some (Except.error err) => some (Except.error err)
    | some (Except.ok csv) => some (decode_records (csv_records csv) [])

/-! ## Helper lemmas -/

theorem foldl_append_eq (ts : List String) (a : String) :
    List.foldl (fun r s => r ++ s) a ts = a ++ List.foldl (fun r s => r ++ s) "" ts := by
  induction ts generalizing a with
  | nil => simp
  | cons t ts ih =>
      rw [List.foldl_cons, List.foldl_cons, ih (a ++ t), ih ("" ++ t),
          String.empty_append, String.append_assoc]

theorem join_cons (t : String) (ts : List String) :
    String.join (t :: ts) = t ++ String.join ts := by
  simp only [String.join, List.foldl_cons, String.empty_append]
  exact foldl_append_eq ts t

theorem read_entries_all_ok (texts : List String) (csv : String) :
    read_entries (texts.map (fun t => Except.ok (Except.ok t))) csv =
      some (Except.ok (csv ++ String.join texts)) := by
  induction texts generalizing csv with
  | nil => simp [read_entries, String.join]
  | cons t ts ih =>
      simp only [List.map_cons, read_entries, ih, join_cons, String.append_assoc]

theorem read_entries_read_error (texts : List String) (e : String)
    (rest : List (Except String (Except String String))) (csv : String) :
    read_entries (texts.map (fun t => Except.ok (Except.ok t)) ++
        Except.ok (Except.error e) :: rest) csv =
      some (Except.error (Error.ParsingFailed e)) := by
  induction texts generalizing csv with
  | nil => rfl
  | cons t ts ih =>
      simp only [List.map_cons, List.cons_append, read_entries]
      exact ih (csv ++ t)

theorem read_entries_lookup_panic (texts : List String) (e : String)
    (rest : List (Except String (Except String String))) (csv : String) :
    read_entries (texts.map (fun t => Except.ok (Except.ok t)) ++
        Except.error e :: rest) csv = none := by
  induction texts generalizing csv with
  | nil => rfl
  | cons t ts ih =>
      simp only [List.map_cons, List.cons_append, read_entries]
      exact ih (csv ++ t)

theorem decode_code_pair_of_split (record : String × String) (db ds : String)
    (h : splitChar '/' record.1 = [db, ds]) :
    decode_code_pair record =
      Except.ok { database_code := db, dataset_code := ds, name := record.2 } := by
  simp only [decode_code_pair, h]

theorem decode_code_pair_of_bad_split (record : String × String)
    (h : (splitChar '/' record.1).length ≠ 2) :
    decode_code_pair record = Except.error (Error.ParsingFailed
      "Invalid format for dataset codes in unzipped code list.") := by
  rcases hs : splitChar '/' record.1 with _ | ⟨a, _ | ⟨b, _ | ⟨c, l⟩⟩⟩
  · simp only [decode_code_pair, hs]
  · simp only [decode_code_pair, hs]
  · exact absurd (by rw [hs]; rfl) h
  · simp only [decode_code_pair, hs]

theorem decode_records_all_ok (records : List (String × String))
    (codes : List Code)
    (h : List.Forall₂ (fun r c => decode_code_pair r = Except.ok c) records codes) :
    ∀ acc : List Code,
      decode_records (records.map Except.ok) acc = Except.ok (acc ++ codes) := by
  induction h with
  | nil => intro acc; simp [decode_records]
  | cons hrc _ ih =>
      intro acc
      simp only [List.map_cons, decode_records, hrc]
      rw [ih]
      simp

theorem decode_records_error_mem (records : List (Except String (String × String)))
    (e : String) (hmem : Except.error e ∈ records) :
    ∀ acc : List Code, ∃ err, decode_records records acc = Except.error err := by
  induction records with
  | nil => cases hmem
  | cons r rest ih =>
      intro acc
      rcases List.mem_cons.mp hmem with h1 | h2
      · exact ⟨Error.ParsingFailed e, by rw [← h1]; rfl⟩
      · match r with
        | Except.error e2 => exact ⟨Error.ParsingFailed e2, rfl⟩
        | Except.ok record =>
            match hdp : decode_code_pair record with
            | Except.error err => exact ⟨err, by simp [decode_records, hdp]⟩
            | Except.ok code =>
                obtain ⟨err, herr⟩ := ih h2 (acc ++ [code])
                exact ⟨err, by simp only [decode_records, hdp]; exact herr⟩

theorem decode_records_bad_row (records : List (Except String (String × String)))
    (record : String × String) (hmem : Except.ok record ∈ records)
    (hbad : (splitChar '/' record.1).length ≠ 2) :
    ∀ acc : List Code, ∃ err, decode_records records acc = Except.error err := by
  induction records with
  | nil => cases hmem
  | cons r rest ih =>
      intro acc
      rcases List.mem_cons.mp hmem with h1 | h2
      · refine ⟨Error.ParsingFailed "Invalid format for dataset codes in unzipped code list.", ?_⟩
        rw [← h1]
        simp only [decode_records, decode_code_pair_of_bad_split record hbad]
      · match r with
        | Except.error e2 => exact ⟨Error.ParsingFailed e2, rfl⟩
        | Except.ok record2 =>
            match hdp : decode_code_pair record2 with
            | Except.error err => exact ⟨err, by simp [decode_records, hdp]⟩
            | Except.ok code =>
                obtain ⟨err, herr⟩ := ih h2 (acc ++ [code])
                exact ⟨err, by simp only [decode_records, hdp]; exact herr⟩

/-! ## Claim theorems -/

/-- Claim C2: a JSON-backed query decodes successfully exactly when the
response object has one single key, in which case the result is that key's
value, independent of the key name; an object with any other key count fails
with a parsing failure reporting the actual count. -/
theorem send_and_unwrap_json_spec {T : Type} :
    (∀ (tree : List (String × T)) (k : String) (v : T), tree = [(k, v)] →
        send_and_unwrap_json (Except.ok tree) = Except.ok v) ∧
    (∀ tree : List (String × T), tree.length ≠ 1 →
        send_and_unwrap_json (Except.ok tree) = Except.error (Error.ParsingFailed
          ("Expected a single element, got " ++ toString tree.length ++ "."))) := by
  constructor
  · intro tree k v h
    subst h
    rfl
  · intro tree h
    match tree with
    | [] => rfl
    | [(k, v)] => simp at h
    | x :: y :: rest => rfl

/-- Witness for C2: the singleton object yields its value whatever the key
is, and the empty and the two-key objects fail reporting counts 0 and 2. -/
theorem send_and_unwrap_json_spec_witness :
    send_and_unwrap_json (Except.ok [("dataset", (5 : Nat))]) = Except.ok 5 ∧
    send_and_unwrap_json (Except.ok ([] : List (String × Nat))) =
      Except.error (Error.ParsingFailed "Expected a single element, got 0.") ∧
    send_and_unwrap_json (Except.ok [("a", (1 : Nat)), ("b", 2)]) =
      Except.error (Error.ParsingFailed "Expected a single element, got 2.") :=
  ⟨(@send_and_unwrap_json_spec Nat).1 [("dataset", 5)] "dataset" 5 rfl,
   (@send_and_unwrap_json_spec Nat).2 [] (by decide),
   (@send_and_unwrap_json_spec Nat).2 [("a", 1), ("b", 2)] (by decide)⟩

/-- Claim C7: each query type produces exactly the documented endpoint path
with its codes interpolated, and the sample codes WIKI and AAPL give the
documented sample path for the data endpoint. -/
theorem fmt_path_templates :
    (∀ q : DatabaseMetadataQuery, DatabaseMetadataQuery.fmt_path q =
        some ("/databases/" ++ q.database_code ++ ".json")) ∧
    (∀ q : DatasetMetadataQuery, DatasetMetadataQuery.fmt_path q =
        some ("/datasets/" ++ q.database_code ++ "/" ++ q.dataset_code ++ "/metadata.json")) ∧
    (∀ q : DatabaseSearch, DatabaseSearch.fmt_path q = some "/databases.json") ∧
    (∀ q : DatasetSearch, DatasetSearch.fmt_path q = some "/datasets.json") ∧
    (∀ q : CodeListQuery, CodeListQuery.fmt_path q =
        some ("/databases/" ++ q.database_code ++ "/codes")) ∧
    (∀ q : DataQuery, DataQuery.fmt_path q =
        some ("/datasets/" ++ q.database_code ++ "/" ++ q.dataset_code ++ "/data.json")) ∧
    (∀ q : DataAndMetadataQuery, DataAndMetadataQuery.fmt_path q =
        some ("/datasets/" ++ q.database_code ++ "/" ++ q.dataset_code ++ ".json")) ∧
    DataQuery.fmt_path (DataQuery.new "WIKI" "AAPL") = some "/datasets/WIKI/AAPL/data.json" :=
  ⟨fun _ => rfl, fun _ => rfl, fun _ => rfl, fun _ => rfl, fun _ => rfl,
   fun _ => rfl, fun _ => rfl, rfl⟩

/-- Claim C8: the path formatting of each of the seven query types always
returns a present value, whatever codes and argument groups the query holds. -/
theorem fmt_path_isSome :
    (∀ q : DatabaseMetadataQuery, (DatabaseMetadataQuery.fmt_path q).isSome = true) ∧
    (∀ q : DatasetMetadataQuery, (DatasetMetadataQuery.fmt_path q).isSome = true) ∧
    (∀ q : DatabaseSearch, (DatabaseSearch.fmt_path q).isSome = true) ∧
    (∀ q : DatasetSearch, (DatasetSearch.fmt_path q).isSome = true) ∧
    (∀ q : CodeListQuery, (CodeListQuery.fmt_path q).isSome = true) ∧
    (∀ q : DataQuery, (DataQuery.fmt_path q).isSome = true) ∧
    (∀ q : DataAndMetadataQuery, (DataAndMetadataQuery.fmt_path q).isSome = true) :=
  ⟨fun _ => rfl, fun _ => rfl, fun _ => rfl, fun _ => rfl, fun _ => rfl,
   fun _ => rfl, fun _ => rfl⟩

/-- Claim C9: every constructor stores the given codes verbatim, with no
validation or escaping, and the path formatting interpolates the stored
codes unchanged, for arbitrary strings. -/
theorem new_stores_codes_verbatim :
    (∀ s : String, (DatabaseMetadataQuery.new s).database_code = s ∧
        DatabaseMetadataQuery.fmt_path (DatabaseMetadataQuery.new s) =
          some ("/databases/" ++ s ++ ".json")) ∧
    (∀ s1 s2 : String, (DatasetMetadataQuery.new s1 s2).database_code = s1 ∧
        (DatasetMetadataQuery.new s1 s2).dataset_code = s2 ∧
        DatasetMetadataQuery.fmt_path (DatasetMetadataQuery.new s1 s2) =
          some ("/datasets/" ++ s1 ++ "/" ++ s2 ++ "/metadata.json")) ∧
    (∀ s : String, (DatasetSearch.new s).database_code = s) ∧
    (∀ s : String, (CodeListQuery.new s).database_code = s ∧
        CodeListQuery.fmt_path (CodeListQuery.new s) =
          some ("/databases/" ++ s ++ "/codes")) ∧
    (∀ s1 s2 : String, (DataQuery.new s1 s2).database_code = s1 ∧
        (DataQuery.new s1 s2).dataset_code = s2 ∧
        DataQuery.fmt_path (DataQuery.new s1 s2) =
          some ("/datasets/" ++ s1 ++ "/" ++ s2 ++ "/data.json")) ∧
    (∀ s1 s2 : String, (DataAndMetadataQuery.new s1 s2).database_code = s1 ∧
        (DataAndMetadataQuery.new s1 s2).dataset_code = s2 ∧
        DataAndMetadataQuery.fmt_path (DataAndMetadataQuery.new s1 s2) =
          some ("/datasets/" ++ s1 ++ "/" ++ s2 ++ ".json")) :=
  ⟨fun _ => ⟨rfl, rfl⟩, fun _ _ => ⟨rfl, rfl, rfl⟩, fun _ => rfl,
   fun _ => ⟨rfl, rfl⟩, fun _ _ => ⟨rfl, rfl, rfl⟩, fun _ _ => ⟨rfl, rfl, rfl⟩⟩

/-- Claim C5: for the three query types that merge two optional argument
fragments (DatabaseSearch request-then-search, DataQuery and
DataAndMetadataQuery request-then-data), two present fragments are joined by
exactly one ampersand in declared order, a single present fragment is
returned unmodified, and two absent fragments give none, not an empty
string. -/
theorem two_group_fmt_arguments_spec :
    (∀ (q : DatabaseSearch) (a1 a2 : String),
        ApiArguments.fmt q.request_arguments = some a1 →
        SearchArguments.fmt q.search_arguments = some a2 →
        DatabaseSearch.fmt_arguments q = some (a1 ++ "&" ++ a2)) ∧
    (∀ (q : DatabaseSearch) (a1 : String),
        ApiArguments.fmt q.request_arguments = some a1 →
        SearchArguments.fmt q.search_arguments = none →
        DatabaseSearch.fmt_arguments q = some a1) ∧
    (∀ (q : DatabaseSearch) (a2 : String),
        ApiArguments.fmt q.request_arguments = none →
        SearchArguments.fmt q.search_arguments = some a2 →
        DatabaseSearch.fmt_arguments q = some a2) ∧
    (∀ q : DatabaseSearch,
        ApiArguments.fmt q.request_arguments = none →
        SearchArguments.fmt q.search_arguments = none →
        DatabaseSearch.fmt_arguments q = none) ∧
    (∀ (q : DataQuery) (a1 a2 : String),
        ApiArguments.fmt q.request_arguments = some a1 →
        DataArguments.fmt q.data_arguments = some a2 →
        DataQuery.fmt_arguments q = some (a1 ++ "&" ++ a2)) ∧
    (∀ (q : DataQuery) (a1 : String),
        ApiArguments.fmt q.request_arguments = some a1 →
        DataArguments.fmt q.data_arguments = none →
        DataQuery.fmt_arguments q = some a1) ∧
    (∀ (q : DataQuery) (a2 : String),
        ApiArguments.fmt q.request_arguments = none →
        DataArguments.fmt q.data_arguments = some a2 →
        DataQuery.fmt_arguments q = some a2) ∧
    (∀ q : DataQuery,
        ApiArguments.fmt q.request_arguments = none →
        DataArguments.fmt q.data_arguments = none →
        DataQuery.fmt_arguments q = none) ∧
    (∀ (q : DataAndMetadataQuery) (a1 a2 : String),
        ApiArguments.fmt q.request_arguments = some a1 →
        DataArguments.fmt q.data_arguments = some a2 →
        DataAndMetadataQuery.fmt_arguments q = some (a1 ++ "&" ++ a2)) ∧
    (∀ (q : DataAndMetadataQuery) (a1 : String),
        ApiArguments.fmt q.request_arguments = some a1 →
        DataArguments.fmt q.data_arguments = none →
        DataAndMetadataQuery.fmt_arguments q = some a1) ∧
    (∀ (q : DataAndMetadataQuery) (a2 : String),
        ApiArguments.fmt q.request_arguments = none →
        DataArguments.fmt q.data_arguments = some a2 →
        DataAndMetadataQuery.fmt_arguments q = some a2) ∧
    (∀ q : DataAndMetadataQuery,
        ApiArguments.fmt q.request_arguments = none →
        DataArguments.fmt q.data_arguments = none →
        DataAndMetadataQuery.fmt_arguments q = none) := by
  refine ⟨?_, ?_, ?_, ?_, ?_, ?_, ?_, ?_, ?_, ?_, ?_, ?_⟩
  · intro q a1 a2 h1 h2; simp only [DatabaseSearch.fmt_arguments, h1, h2]
  · intro q a1 h1 h2; simp only [DatabaseSearch.fmt_arguments, h1, h2]
  · intro q a2 h1 h2; simp only [DatabaseSearch.fmt_arguments, h1, h2]
  · intro q h1 h2; simp only [DatabaseSearch.fmt_arguments, h1, h2]
  · intro q a1 a2 h1 h2; simp only [DataQuery.fmt_arguments, h1, h2]
  · intro q a1 h1 h2; simp only [DataQuery.fmt_arguments, h1, h2]
  · intro q a2 h1 h2; simp only [DataQuery.fmt_arguments, h1, h2]
  · intro q h1 h2; simp only [DataQuery.fmt_arguments, h1, h2]
  · intro q a1 a2 h1 h2; simp only [DataAndMetadataQuery.fmt_arguments, h1, h2]
  · intro q a1 h1 h2; simp only [DataAndMetadataQuery.fmt_arguments, h1, h2]
  · intro q a2 h1 h2; simp only [DataAndMetadataQuery.fmt_arguments, h1, h2]
  · intro q h1 h2; simp only [DataAndMetadataQuery.fmt_arguments, h1, h2]

/-- Witness for C5: the four fragment configurations of each of the three
merging query types, evaluated on concrete argument groups. -/
theorem two_group_fmt_arguments_spec_witness :
    DatabaseSearch.fmt_arguments ⟨⟨[("k", "v")]⟩, ⟨[("query", "oil")]⟩⟩ =
      some "k=v&query=oil" ∧
    DatabaseSearch.fmt_arguments ⟨⟨[("k", "v")]⟩, ⟨[]⟩⟩ = some "k=v" ∧
    DatabaseSearch.fmt_arguments ⟨⟨[]⟩, ⟨[("query", "oil")]⟩⟩ = some "query=oil" ∧
    DatabaseSearch.fmt_arguments ⟨⟨[]⟩, ⟨[]⟩⟩ = none ∧
    DataQuery.fmt_arguments ⟨"WIKI", "AAPL", ⟨[("rows", "5")]⟩, ⟨[("k", "v")]⟩⟩ =
      some "k=v&rows=5" ∧
    DataQuery.fmt_arguments ⟨"WIKI", "AAPL", ⟨[]⟩, ⟨[("k", "v")]⟩⟩ = some "k=v" ∧
    DataQuery.fmt_arguments ⟨"WIKI", "AAPL", ⟨[("rows", "5")]⟩, ⟨[]⟩⟩ = some "rows=5" ∧
    DataQuery.fmt_arguments ⟨"WIKI", "AAPL", ⟨[]⟩, ⟨[]⟩⟩ = none ∧
    DataAndMetadataQuery.fmt_arguments ⟨"WIKI", "AAPL", ⟨[("rows", "5")]⟩, ⟨[("k", "v")]⟩⟩ =
      some "k=v&rows=5" ∧
    DataAndMetadataQuery.fmt_arguments ⟨"WIKI", "AAPL", ⟨[]⟩, ⟨[("k", "v")]⟩⟩ = some "k=v" ∧
    DataAndMetadataQuery.fmt_arguments ⟨"WIKI", "AAPL", ⟨[("rows", "5")]⟩, ⟨[]⟩⟩ =
      some "rows=5" ∧
    DataAndMetadataQuery.fmt_arguments ⟨"WIKI", "AAPL", ⟨[]⟩, ⟨[]⟩⟩ = none :=
  ⟨two_group_fmt_arguments_spec.1 _ "k=v" "query=oil" rfl rfl,
   two_group_fmt_arguments_spec.2.1 _ "k=v" rfl rfl,
   two_group_fmt_arguments_spec.2.2.1 _ "query=oil" rfl rfl,
   two_group_fmt_arguments_spec.2.2.2.1 _ rfl rfl,
   two_group_fmt_arguments_spec.2.2.2.2.1 _ "k=v" "rows=5" rfl rfl,
   two_group_fmt_arguments_spec.2.2.2.2.2.1 _ "k=v" rfl rfl,
   two_group_fmt_arguments_spec.2.2.2.2.2.2.1 _ "rows=5" rfl rfl,
   two_group_fmt_arguments_spec.2.2.2.2.2.2.2.1 _ rfl rfl,
   two_group_fmt_arguments_spec.2.2.2.2.2.2.2.2.1 _ "k=v" "rows=5" rfl rfl,
   two_group_fmt_arguments_spec.2.2.2.2.2.2.2.2.2.1 _ "k=v" rfl rfl,
   two_group_fmt_arguments_spec.2.2.2.2.2.2.2.2.2.2.1 _ "rows=5" rfl rfl,
   two_group_fmt_arguments_spec.2.2.2.2.2.2.2.2.2.2.2 _ rfl rfl⟩

/-- Counterexample to claim C1 as stated: a dataset search whose two
argument groups are both empty formats its arguments to none; it does not
degrade to the literal database_code term. -/
theorem datasetSearch_fmt_arguments_counterexample :
    DatasetSearch.fmt_arguments (DatasetSearch.new "WIKI") = none ∧
    DatasetSearch.fmt_arguments (DatasetSearch.new "WIKI") ≠
      some "database_code=WIKI" := by
  refine ⟨rfl, ?_⟩
  rw [show DatasetSearch.fmt_arguments (DatasetSearch.new "WIKI") = none from rfl]
  simp

/-- Claim C1 as amended: when at least one fragment is present the combined
dataset-search argument string ends with the literal database_code term —
both present gives request, search, then the literal term; one present gives
the fragment then the literal term; but when both fragments are absent the
result is none, not the bare literal term. -/
theorem datasetSearch_fmt_arguments_spec :
    (∀ (q : DatasetSearch) (a1 a2 : String),
        ApiArguments.fmt q.request_arguments = some a1 →
        SearchArguments.fmt q.search_arguments = some a2 →
        DatasetSearch.fmt_arguments q =
          some (a1 ++ "&" ++ a2 ++ "&database_code=" ++ q.database_code)) ∧
    (∀ (q : DatasetSearch) (a1 : String),
        ApiArguments.fmt q.request_arguments = some a1 →
        SearchArguments.fmt q.search_arguments = none →
        DatasetSearch.fmt_arguments q = some (a1 ++ "&database_code=" ++ q.database_code)) ∧
    (∀ (q : DatasetSearch) (a2 : String),
        ApiArguments.fmt q.request_arguments = none →
        SearchArguments.fmt q.search_arguments = some a2 →
        DatasetSearch.fmt_arguments q = some (a2 ++ "&database_code=" ++ q.database_code)) ∧
    (∀ q : DatasetSearch,
        ApiArguments.fmt q.request_arguments = none →
        SearchArguments.fmt q.search_arguments = none →
        DatasetSearch.fmt_arguments q = none) := by
  refine ⟨?_, ?_, ?_, ?_⟩
  · intro q a1 a2 h1 h2; simp only [DatasetSearch.fmt_arguments, h1, h2]
  · intro q a1 h1 h2; simp only [DatasetSearch.fmt_arguments, h1, h2]
  · intro q a2 h1 h2; simp only [DatasetSearch.fmt_arguments, h1, h2]
  · intro q h1 h2; simp only [DatasetSearch.fmt_arguments, h1, h2]

/-- Witness for the amended C1: the four fragment configurations of the
dataset search, evaluated on concrete argument groups. -/
theorem datasetSearch_fmt_arguments_spec_witness :
    DatasetSearch.fmt_arguments ⟨"WIKI", ⟨[("k", "v")]⟩, ⟨[("query", "oil")]⟩⟩ =
      some "k=v&query=oil&database_code=WIKI" ∧
    DatasetSearch.fmt_arguments ⟨"WIKI", ⟨[("k", "v")]⟩, ⟨[]⟩⟩ =
      some "k=v&database_code=WIKI" ∧
    DatasetSearch.fmt_arguments ⟨"WIKI", ⟨[]⟩, ⟨[("query", "oil")]⟩⟩ =
      some "query=oil&database_code=WIKI" ∧
    DatasetSearch.fmt_arguments ⟨"WIKI", ⟨[]⟩, ⟨[]⟩⟩ = none :=
  ⟨datasetSearch_fmt_arguments_spec.1 _ "k=v" "query=oil" rfl rfl,
   datasetSearch_fmt_arguments_spec.2.1 _ "k=v" rfl rfl,
   datasetSearch_fmt_arguments_spec.2.2.1 _ "query=oil" rfl rfl,
   datasetSearch_fmt_arguments_spec.2.2.2 _ rfl rfl⟩

/-- Claim C3: the code-list decoder concatenates the text of every archive
entry, decodes the combined CSV rows in order into Code records with every
row represented, yields exactly the two expected records on the two-row
sample spread over two archive entries, and aborts with an error on a
row-level decode failure, returning no partial results. -/
theorem code_list_decode_spec :
    (∀ texts : List String,
        read_entries (texts.map (fun t => Except.ok (Except.ok t))) "" =
          some (Except.ok (String.join texts))) ∧
    (∀ (records : List (String × String)) (codes : List Code),
        List.Forall₂ (fun r c => decode_code_pair r = Except.ok c) records codes →
        decode_records (records.map Except.ok) [] = Except.ok codes) ∧
    code_list_decode (Except.ok [Except.ok (Except.ok "WIKI/AAPL,Apple Inc.\n"),
        Except.ok (Except.ok "WIKI/MSFT,Microsoft")]) =
      some (Except.ok
        [{ database_code := "WIKI", dataset_code := "AAPL", name := "Apple Inc." },
         { database_code := "WIKI", dataset_code := "MSFT", name := "Microsoft" }]) ∧
    (∀ (records : List (Except String (String × String))) (e : String)
        (acc : List Code), Except.error e ∈ records →
        ∃ err, decode_records records acc = Except.error err) := by
  refine ⟨?_, ?_, rfl, ?_⟩
  · intro texts
    rw [read_entries_all_ok texts "", String.empty_append]
  · intro records codes h
    rw [decode_records_all_ok records codes h []]
    simp
  · intro records e acc hmem
    exact decode_records_error_mem records e hmem acc

/-- Witness for C3: a one-row record list decodes to its one Code in order,
and a record list holding a row-level error decodes to an error. -/
theorem code_list_decode_spec_witness :
    decode_records [Except.ok ("WIKI/AAPL", "Apple Inc.")] [] =
      Except.ok [{ database_code := "WIKI", dataset_code := "AAPL",
                   name := "Apple Inc." }] ∧
    (∃ err, decode_records [Except.error "bad row"] [] = Except.error err) :=
  ⟨code_list_decode_spec.2.1 [("WIKI/AAPL", "Apple Inc.")]
      [{ database_code := "WIKI", dataset_code := "AAPL", name := "Apple Inc." }]
      (List.Forall₂.cons rfl List.Forall₂.nil),
   code_list_decode_spec.2.2.2 [Except.error "bad row"] "bad row" [] (by simp)⟩

/-- Counterexample to claim C4 as stated: a first column consisting of one
bare slash splits into two empty segments, and the decoder accepts the row
with empty database and dataset codes instead of failing, so the claimed
non-emptiness requirement is not checked by the code. -/
theorem decode_code_pair_counterexample :
    decode_code_pair ("/", "x") =
      Except.ok { database_code := "", dataset_code := "", name := "x" } ∧
    decode_code_pair ("/", "x") ≠ Except.error (Error.ParsingFailed
      "Invalid format for dataset codes in unzipped code list.") := by
  refine ⟨rfl, ?_⟩
  rw [show decode_code_pair ("/", "x") =
      Except.ok { database_code := "", dataset_code := "", name := "x" } from rfl]
  simp

/-- Claim C4 as amended: splitting the first column on the slash must give
exactly two segments, possibly empty; any other segment count fails with the
fixed invalid-format parsing failure and the call returns no rows; in
particular the first columns WIKIAAPL and A/B/C are rejected. -/
theorem decode_code_pair_spec :
    (∀ (record : String × String) (db ds : String),
        splitChar '/' record.1 = [db, ds] →
        decode_code_pair record =
          Except.ok { database_code := db, dataset_code := ds, name := record.2 }) ∧
    (∀ record : String × String, (splitChar '/' record.1).length ≠ 2 →
        decode_code_pair record = Except.error (Error.ParsingFailed
          "Invalid format for dataset codes in unzipped code list.")) ∧
    decode_code_pair ("WIKIAAPL", "x") = Except.error (Error.ParsingFailed
      "Invalid format for dataset codes in unzipped code list.") ∧
    decode_code_pair ("A/B/C", "x") = Except.error (Error.ParsingFailed
      "Invalid format for dataset codes in unzipped code list.") ∧
    (∀ (records : List (Except String (String × String)))
        (record : String × String) (acc : List Code),
        Except.ok record ∈ records → (splitChar '/' record.1).length ≠ 2 →
        ∃ err, decode_records records acc = Except.error err) := by
  refine ⟨decode_code_pair_of_split, decode_code_pair_of_bad_split, rfl, rfl, ?_⟩
  intro records record acc hmem hbad
  exact decode_records_bad_row records record hmem hbad acc

/-- Witness for the amended C4: a well-formed row decodes to its Code, a
one-segment row fails with the fixed message, and a record list holding a
three-segment row decodes to an error. -/
theorem decode_code_pair_spec_witness :
    decode_code_pair ("WIKI/AAPL", "Apple Inc.") =
      Except.ok { database_code := "WIKI", dataset_code := "AAPL",
                  name := "Apple Inc." } ∧
    decode_code_pair ("WIKIMSFT", "y") = Except.error (Error.ParsingFailed
      "Invalid format for dataset codes in unzipped code list.") ∧
    (∃ err, decode_records [Except.ok ("A/B/C", "x")] [] = Except.error err) :=
  ⟨decode_code_pair_spec.1 ("WIKI/AAPL", "Apple Inc.") "WIKI" "AAPL" rfl,
   decode_code_pair_spec.2.1 ("WIKIMSFT", "y") (by decide),
   decode_code_pair_spec.2.2.2.2 [Except.ok ("A/B/C", "x")] ("A/B/C", "x") []
      (by simp) (by decide)⟩

/-- Counterexample to claim C6 as stated: when the per-entry archive lookup
fails — the zip crate's by_index returns an error, for instance on an entry
with an unsupported compression method — the source unwraps that result and
panics (the none outcome of the model) instead of returning a typed parsing
failure, so not every decoding failure is surfaced as an error value. -/
theorem code_list_panic_counterexample :
    code_list_decode (Except.ok [Except.error "invalid compression method"]) = none ∧
    code_list_decode (Except.ok [Except.error "invalid compression method"]) ≠
      some (Except.error (Error.ParsingFailed "invalid compression method")) := by
  refine ⟨rfl, ?_⟩
  rw [show code_list_decode (Except.ok [Except.error "invalid compression method"]) =
      none from rfl]
  simp

/-- Claim C6 as amended: a failure to open the payload as a zip archive and
a failure to read the text of an entry are both returned as parsing failures
carrying the underlying message, with no local recovery; but a failure of
the per-entry lookup itself is unwrapped by the source and panics instead of
being returned. -/
theorem code_list_error_translation :
    (∀ e : String, code_list_decode (Except.error e) =
        some (Except.error (Error.ParsingFailed e))) ∧
    (∀ (texts : List String) (e : String)
        (rest : List (Except String (Except String String))),
        code_list_decode (Except.ok (texts.map (fun t => Except.ok (Except.ok t)) ++
          Except.ok (Except.error e) :: rest)) =
        some (Except.error (Error.ParsingFailed e))) ∧
    (∀ (texts : List String) (e : String)
        (rest : List (Except String (Except String String))),
        code_list_decode (Except.ok (texts.map (fun t => Except.ok (Except.ok t)) ++
          Except.error e :: rest)) = none) := by
  refine ⟨fun _ => rfl, ?_, ?_⟩
  · intro texts e rest
    simp only [code_list_decode, read_entries_read_error texts e rest ""]
  · intro texts e rest
    simp only [code_list_decode, read_entries_lookup_panic texts e rest ""]

/-- Claim C10: a valid archive with zero entries decodes to the empty code
list, and so does any archive whose concatenated entry text contains no CSV
data rows. -/
theorem code_list_decode_empty :
    code_list_decode (Except.ok []) = some (Except.ok []) ∧
    (∀ texts : List String, csv_records (String.join texts) = [] →
        code_list_decode (Except.ok (texts.map (fun t => Except.ok (Except.ok t)))) =
          some (Except.ok [])) := by
  refine ⟨rfl, ?_⟩
  intro texts h
  simp only [code_list_decode, read_entries_all_ok texts "", String.empty_append, h]
  rfl

/-- Witness for C10: a single archive entry holding only a newline produces
no CSV rows and the decode returns the empty code list. -/
theorem code_list_decode_empty_witness :
    csv_records (String.join ["\n"]) = [] ∧
    code_list_decode (Except.ok (["\n"].map (fun t => Except.ok (Except.ok t)))) =
      some (Except.ok []) :=
  ⟨rfl, code_list_decode_empty.2 ["\n"] rfl⟩

end Quandl
